import Mathlib

/-!
Verification development for the pair-year interlock event-classification
pipeline (Code_Sample.py).

Modelling conventions:
* Float arrays carrying cumulative origination/launch counts are embedded as
  `List (Option ℤ)` / fields of type `Option ℤ`, where `none` plays the role
  of NaN (missing).  The counters in the source data are integer-valued
  cumulative counts stored in float32; all engine operations on them are
  order comparisons, running maxima and differences, which restrict to ℤ.
* NumPy comparison semantics: any comparison involving NaN is `false`
  (`gtv`, `eq0` below), and `np.nan_to_num` replaces NaN by an explicit
  sentinel (`Option.getD`).
* Shares (float division) are embedded as ℚ.
-/

/-- NumPy strict greater-than on possibly-NaN values: false when either side
is missing. -/
def gtv : Option ℤ → Option ℤ → Bool
  | some a, some b => decide (b < a)
  | _, _ => false

/-- NumPy equality-to-zero test on a possibly-NaN value: false on NaN. -/
def eq0 : Option ℤ → Bool
  | some a => decide (a = 0)
  | none => false

/-- NumPy strictly-positive test on a possibly-NaN value: false on NaN. -/
def gt0 (x : Option ℤ) : Bool := gtv x (some 0)

/-- One row of the classification engine's input bundle: the temporal
derivative bundle (per group, per pair-year) plus the causal eligibility
flags, mirroring the arrays pulled from the batch cache in
`prepare_arrays_fast`. -/
structure BundleRow where
  cur_o1 : Option ℤ
  cur_o2 : Option ℤ
  L1_o1 : Option ℤ
  L1_o2 : Option ℤ
  L1_l1 : Option ℤ
  L1_l2 : Option ℤ
  F1_o1 : Option ℤ
  F2_o1 : Option ℤ
  F3_o1 : Option ℤ
  F1_o2 : Option ℤ
  F2_o2 : Option ℤ
  F3_o2 : Option ℤ
  LAST_o1 : Option ℤ
  LAST_o2 : Option ℤ
  LAST_l1 : Option ℤ
  LAST_l2 : Option ℤ
  ok1 : Bool
  ok2 : Bool
deriving DecidableEq, Repr

/-- Both sides' lag-1 origination values are non-missing
(`(~isnan(L1_o1)) & (~isnan(L1_o2))`). -/
def mask_na_orig (r : BundleRow) : Bool := r.L1_o1.isSome && r.L1_o2.isSome

/-- Both sides' lag-1 launch values are non-missing. -/
def mask_na_launch (r : BundleRow) : Bool := r.L1_l1.isSome && r.L1_l2.isSome

/-- Both sides' lead-3 origination values are non-missing. -/
def mask_na_future (r : BundleRow) : Bool := r.F3_o1.isSome && r.F3_o2.isSome

/-- Both sides had known-zero origination at lag-1
(`nan_to_num(L1_o, nan=-1) == 0` on both sides: missing maps to -1, hence
fails the zero test). -/
def both_inexp_lag (r : BundleRow) : Bool :=
  decide (r.L1_o1.getD (-1) = 0) && decide (r.L1_o2.getD (-1) = 0)

/-- Side 1's origination strictly exceeds its lag-1 value at any of
t, t+1, t+2, t+3. -/
def starts1_t_to_t2 (r : BundleRow) : Bool :=
  gtv r.cur_o1 r.L1_o1 || gtv r.F1_o1 r.L1_o1 || gtv r.F2_o1 r.L1_o1 || gtv r.F3_o1 r.L1_o1

/-- Side 2's origination strictly exceeds its lag-1 value at any of
t, t+1, t+2, t+3. -/
def starts2_t_to_t2 (r : BundleRow) : Bool :=
  gtv r.cur_o2 r.L1_o2 || gtv r.F1_o2 r.L1_o2 || gtv r.F2_o2 r.L1_o2 || gtv r.F3_o2 r.L1_o2

/-- Side 1's pair-terminal origination exceeds its lag-1 value. -/
def starts1_by_last (r : BundleRow) : Bool := gtv r.LAST_o1 r.L1_o1

/-- Side 2's pair-terminal origination exceeds its lag-1 value. -/
def starts2_by_last (r : BundleRow) : Bool := gtv r.LAST_o2 r.L1_o2

/-- Side 1's pair-terminal launch exceeds its lag-1 launch value. -/
def launched1_by_last (r : BundleRow) : Bool := gtv r.LAST_l1 r.L1_l1

/-- Side 2's pair-terminal launch exceeds its lag-1 launch value. -/
def launched2_by_last (r : BundleRow) : Bool := gtv r.LAST_l2 r.L1_l2

/-- Either side starts in the 4-year window, launches by last, and passes its
causal eligibility flag. -/
def either_starts_t_to_t2_and_launched (r : BundleRow) : Bool :=
  (starts1_t_to_t2 r && launched1_by_last r && r.ok1) ||
  (starts2_t_to_t2 r && launched2_by_last r && r.ok2)

/-- Either side's pair-terminal origination exceeds its lag-1 value. -/
def either_starts_by_last (r : BundleRow) : Bool :=
  starts1_by_last r || starts2_by_last r

/-- Symmetric b-base: both lag-1 values observed and one side launched-zero
while the other side originated-zero at lag-1. -/
def b_second_base (r : BundleRow) : Bool :=
  mask_na_orig r && mask_na_launch r &&
  ((eq0 r.L1_l1 && eq0 r.L1_o2) || (eq0 r.L1_o1 && eq0 r.L1_l2))

/-- Mask a.1 (`m` is the per-row scenario base-mask bit). -/
def a1 (m : Bool) (r : BundleRow) : Bool :=
  m && mask_na_orig r &&
  ((gt0 r.L1_o1 && eq0 r.L1_o2) || (eq0 r.L1_o1 && gt0 r.L1_o2))

/-- Mask a.2. -/
def a2 (m : Bool) (r : BundleRow) : Bool :=
  m && mask_na_orig r &&
  ((gt0 r.L1_o1 && eq0 r.L1_o2 && gt0 r.cur_o2) ||
   (eq0 r.L1_o1 && gt0 r.L1_o2 && gt0 r.cur_o1))

/-- Mask a.3. -/
def a3 (m : Bool) (r : BundleRow) : Bool :=
  m && mask_na_orig r && mask_na_future r &&
  ((gt0 r.L1_o1 && eq0 r.L1_o2 && gt0 r.F3_o2) ||
   (eq0 r.L1_o1 && gt0 r.L1_o2 && gt0 r.F3_o1))

/-- Mask a.4. -/
def a4 (m : Bool) (r : BundleRow) : Bool :=
  m && mask_na_orig r && mask_na_future r && mask_na_launch r &&
  ((gt0 r.L1_o1 && eq0 r.L1_o2 && starts2_t_to_t2 r && launched2_by_last r && r.ok2) ||
   (eq0 r.L1_o1 && gt0 r.L1_o2 && starts1_t_to_t2 r && launched1_by_last r && r.ok1))

/-- Mask a.5. -/
def a5 (m : Bool) (r : BundleRow) : Bool :=
  m && mask_na_orig r && mask_na_future r &&
  ((gt0 r.L1_o1 && eq0 r.L1_o2 && starts2_by_last r) ||
   (eq0 r.L1_o1 && gt0 r.L1_o2 && starts1_by_last r))

/-- Mask a.6. -/
def a6 (m : Bool) (r : BundleRow) : Bool :=
  m && mask_na_orig r && both_inexp_lag r

/-- Mask a.7. -/
def a7 (m : Bool) (r : BundleRow) : Bool :=
  m && mask_na_orig r && both_inexp_lag r && (gt0 r.cur_o1 || gt0 r.cur_o2)

/-- Mask a.8. -/
def a8 (m : Bool) (r : BundleRow) : Bool :=
  m && mask_na_orig r && mask_na_future r && both_inexp_lag r &&
  (gt0 r.F3_o1 || gt0 r.F3_o2)

/-- Mask a.9. -/
def a9 (m : Bool) (r : BundleRow) : Bool :=
  m && mask_na_orig r && mask_na_future r && mask_na_launch r && both_inexp_lag r &&
  either_starts_t_to_t2_and_launched r

/-- Mask a.10. -/
def a10 (m : Bool) (r : BundleRow) : Bool :=
  m && mask_na_orig r && mask_na_future r && both_inexp_lag r &&
  either_starts_by_last r

/-- Mask b.1. -/
def b1 (m : Bool) (r : BundleRow) : Bool :=
  m && mask_na_orig r && mask_na_launch r &&
  ((gt0 r.L1_l1 && eq0 r.L1_o2) || (eq0 r.L1_o1 && gt0 r.L1_l2))

/-- Mask b.2. -/
def b2 (m : Bool) (r : BundleRow) : Bool :=
  m && mask_na_orig r && mask_na_launch r &&
  ((gt0 r.L1_l1 && eq0 r.L1_o2 && gt0 r.cur_o2) ||
   (eq0 r.L1_o1 && gt0 r.L1_l2 && gt0 r.cur_o1))

/-- Mask b.3. -/
def b3 (m : Bool) (r : BundleRow) : Bool :=
  m && mask_na_orig r && mask_na_launch r && mask_na_future r &&
  ((gt0 r.L1_l1 && eq0 r.L1_o2 && gt0 r.F3_o2) ||
   (eq0 r.L1_o1 && gt0 r.L1_l2 && gt0 r.F3_o1))

/-- Mask b.4. -/
def b4 (m : Bool) (r : BundleRow) : Bool :=
  m && mask_na_orig r && mask_na_launch r && mask_na_future r &&
  ((gt0 r.L1_l1 && eq0 r.L1_o2 && starts2_t_to_t2 r && launched2_by_last r && r.ok2) ||
   (eq0 r.L1_o1 && gt0 r.L1_l2 && starts1_t_to_t2 r && launched1_by_last r && r.ok1))

/-- Mask b.5. -/
def b5 (m : Bool) (r : BundleRow) : Bool :=
  m && mask_na_orig r && mask_na_launch r && mask_na_future r &&
  ((gt0 r.L1_l1 && eq0 r.L1_o2 && starts2_by_last r) ||
   (eq0 r.L1_o1 && gt0 r.L1_l2 && starts1_by_last r))

/-- Mask b.6. -/
def b6 (m : Bool) (r : BundleRow) : Bool :=
  m && b_second_base r

/-- Mask b.7. -/
def b7 (m : Bool) (r : BundleRow) : Bool :=
  m && mask_na_orig r && mask_na_launch r &&
  ((eq0 r.L1_l1 && eq0 r.L1_o2 && gt0 r.cur_o2) ||
   (eq0 r.L1_l2 && eq0 r.L1_o1 && gt0 r.cur_o1))

/-- Mask b.8. -/
def b8 (m : Bool) (r : BundleRow) : Bool :=
  m && mask_na_orig r && mask_na_launch r && mask_na_future r &&
  ((eq0 r.L1_l1 && eq0 r.L1_o2 && gt0 r.F3_o2) ||
   (eq0 r.L1_l2 && eq0 r.L1_o1 && gt0 r.F3_o1))

/-- Mask b.9. -/
def b9 (m : Bool) (r : BundleRow) : Bool :=
  m && mask_na_orig r && mask_na_launch r && mask_na_future r &&
  ((eq0 r.L1_l1 && eq0 r.L1_o2 && (starts2_t_to_t2 r && launched2_by_last r && r.ok2)) ||
   (eq0 r.L1_l2 && eq0 r.L1_o1 && (starts1_t_to_t2 r && launched1_by_last r && r.ok1)))

/-- Mask b.10. -/
def b10 (m : Bool) (r : BundleRow) : Bool :=
  m && mask_na_orig r && mask_na_launch r && mask_na_future r &&
  ((eq0 r.L1_l1 && eq0 r.L1_o2 && starts2_by_last r) ||
   (eq0 r.L1_l2 && eq0 r.L1_o1 && starts1_by_last r))

/-- Mask rn.1. -/
def rn1 (m : Bool) (r : BundleRow) : Bool :=
  m && mask_na_orig r && mask_na_launch r &&
  ((gt0 r.L1_o1 && eq0 r.L1_o2 && eq0 r.L1_l1) ||
   (eq0 r.L1_o1 && gt0 r.L1_o2 && eq0 r.L1_l2))

/-- Mask rn.2. -/
def rn2 (m : Bool) (r : BundleRow) : Bool :=
  m && mask_na_orig r && mask_na_launch r &&
  ((gt0 r.L1_o1 && eq0 r.L1_o2 && eq0 r.L1_l1 && gt0 r.cur_o2) ||
   (eq0 r.L1_o1 && gt0 r.L1_o2 && eq0 r.L1_l2 && gt0 r.cur_o1))

/-- Mask rn.3. -/
def rn3 (m : Bool) (r : BundleRow) : Bool :=
  m && mask_na_orig r && mask_na_launch r && mask_na_future r &&
  ((gt0 r.L1_o1 && eq0 r.L1_o2 && eq0 r.L1_l1 && gt0 r.F3_o2) ||
   (eq0 r.L1_o1 && gt0 r.L1_o2 && eq0 r.L1_l2 && gt0 r.F3_o1))

/-- Mask rn.4. -/
def rn4 (m : Bool) (r : BundleRow) : Bool :=
  m && mask_na_orig r && mask_na_launch r && mask_na_future r &&
  ((gt0 r.L1_o1 && eq0 r.L1_o2 && eq0 r.L1_l1 && (starts2_t_to_t2 r && launched2_by_last r && r.ok2)) ||
   (eq0 r.L1_o1 && gt0 r.L1_o2 && eq0 r.L1_l2 && (starts1_t_to_t2 r && launched1_by_last r && r.ok1)))

/-- Mask rn.5. -/
def rn5 (m : Bool) (r : BundleRow) : Bool :=
  m && mask_na_orig r && mask_na_launch r && mask_na_future r &&
  ((gt0 r.L1_o1 && eq0 r.L1_o2 && eq0 r.L1_l1 && gtv r.LAST_o2 r.L1_o2) ||
   (eq0 r.L1_o1 && gt0 r.L1_o2 && eq0 r.L1_l2 && gtv r.LAST_o1 r.L1_o1))

/-- The 25 classification masks in the order of `mats` in
`compute_bundle_counts`. -/
def maskList : List (Bool → BundleRow → Bool) :=
  [a1, a2, a3, a4, a5, a6, a7, a8, a9, a10,
   b1, b2, b3, b4, b5, b6, b7, b8, b9, b10,
   rn1, rn2, rn3, rn4, rn5]

/-- The classification engine: given the input bundle (one `BundleRow` per
base-table row) and the per-row scenario base mask, return the 25 mask
counts in order. -/
def compute_bundle_counts (arr : List BundleRow) (base_mask : List Bool) : List ℕ :=
  maskList.map fun mk => (arr.zip base_mask).countP fun p => mk p.2 p.1

/-- Helper: counting rows of the zipped (row, base-bit) table by a predicate
that forces the base bit is bounded by the number of true base bits. -/
theorem countP_zip_le {α : Type} (arr : List α) (base : List Bool)
    (p : α × Bool → Bool) (hp : ∀ x, p x = true → x.2 = true) :
    (arr.zip base).countP p ≤ base.countP id := by
  induction arr generalizing base with
  | nil => simp
  | cons a as ih =>
    cases base with
    | nil => simp
    | cons mb bs =>
      have h1 := ih bs
      rw [List.zip_cons_cons, List.countP_cons, List.countP_cons]
      cases hpa : p (a, mb) with
      | false => cases mb <;> simp <;> omega
      | true =>
        have hmb : mb = true := hp _ hpa
        simp [hmb]
        omega

/-- Helper: a pointwise Boolean implication between two masks transfers to
their counts over any zipped bundle. -/
theorem countP_mask_le (mk1 mk2 : Bool → BundleRow → Bool)
    (h : ∀ m r, mk1 m r ≤ mk2 m r) (arr : List BundleRow) (bm : List Bool) :
    (arr.zip bm).countP (fun p => mk1 p.2 p.1) ≤
      (arr.zip bm).countP (fun p => mk2 p.2 p.1) := by
  refine List.countP_mono_left fun x _ hx => ?_
  have h2 := h x.2 x.1
  rw [Bool.le_iff_imp] at h2
  exact h2 hx

/-- Helper: a.2 refines a.1 pointwise. -/
theorem a2_le_a1 (m : Bool) (r : BundleRow) : a2 m r ≤ a1 m r := by
  rw [Bool.le_iff_imp]
  simp only [a1, a2, Bool.and_eq_true, Bool.or_eq_true]
  tauto

/-- Helper: a.3 refines a.1 pointwise. -/
theorem a3_le_a1 (m : Bool) (r : BundleRow) : a3 m r ≤ a1 m r := by
  rw [Bool.le_iff_imp]
  simp only [a1, a3, Bool.and_eq_true, Bool.or_eq_true]
  tauto

/-- Helper: a.4 refines a.1 pointwise. -/
theorem a4_le_a1 (m : Bool) (r : BundleRow) : a4 m r ≤ a1 m r := by
  rw [Bool.le_iff_imp]
  simp only [a1, a4, Bool.and_eq_true, Bool.or_eq_true]
  tauto

/-- Helper: a.5 refines a.1 pointwise. -/
theorem a5_le_a1 (m : Bool) (r : BundleRow) : a5 m r ≤ a1 m r := by
  rw [Bool.le_iff_imp]
  simp only [a1, a5, Bool.and_eq_true, Bool.or_eq_true]
  tauto

/-- Helper: a.7 refines a.6 pointwise. -/
theorem a7_le_a6 (m : Bool) (r : BundleRow) : a7 m r ≤ a6 m r := by
  rw [Bool.le_iff_imp]
  simp only [a6, a7, Bool.and_eq_true, Bool.or_eq_true]
  tauto

/-- Helper: a.8 refines a.6 pointwise. -/
theorem a8_le_a6 (m : Bool) (r : BundleRow) : a8 m r ≤ a6 m r := by
  rw [Bool.le_iff_imp]
  simp only [a6, a8, Bool.and_eq_true, Bool.or_eq_true]
  tauto

/-- Helper: a.9 refines a.6 pointwise. -/
theorem a9_le_a6 (m : Bool) (r : BundleRow) : a9 m r ≤ a6 m r := by
  rw [Bool.le_iff_imp]
  simp only [a6, a9, Bool.and_eq_true, Bool.or_eq_true]
  tauto

/-- Helper: a.10 refines a.6 pointwise. -/
theorem a10_le_a6 (m : Bool) (r : BundleRow) : a10 m r ≤ a6 m r := by
  rw [Bool.le_iff_imp]
  simp only [a6, a10, Bool.and_eq_true, Bool.or_eq_true]
  tauto

/-- Helper: b.7 refines b.6 pointwise. -/
theorem b7_le_b6 (m : Bool) (r : BundleRow) : b7 m r ≤ b6 m r := by
  rw [Bool.le_iff_imp]
  simp only [b6, b7, b_second_base, Bool.and_eq_true, Bool.or_eq_true]
  tauto

/-- Helper: b.8 refines b.6 pointwise. -/
theorem b8_le_b6 (m : Bool) (r : BundleRow) : b8 m r ≤ b6 m r := by
  rw [Bool.le_iff_imp]
  simp only [b6, b8, b_second_base, Bool.and_eq_true, Bool.or_eq_true]
  tauto

/-- Helper: b.9 refines b.6 pointwise. -/
theorem b9_le_b6 (m : Bool) (r : BundleRow) : b9 m r ≤ b6 m r := by
  rw [Bool.le_iff_imp]
  simp only [b6, b9, b_second_base, Bool.and_eq_true, Bool.or_eq_true]
  tauto

/-- Helper: b.10 refines b.6 pointwise. -/
theorem b10_le_b6 (m : Bool) (r : BundleRow) : b10 m r ≤ b6 m r := by
  rw [Bool.le_iff_imp]
  simp only [b6, b10, b_second_base, Bool.and_eq_true, Bool.or_eq_true]
  tauto

/-- Helper: rn.2 refines rn.1 pointwise. -/
theorem rn2_le_rn1 (m : Bool) (r : BundleRow) : rn2 m r ≤ rn1 m r := by
  rw [Bool.le_iff_imp]
  simp only [rn1, rn2, Bool.and_eq_true, Bool.or_eq_true]
  tauto

/-- Helper: rn.3 refines rn.1 pointwise. -/
theorem rn3_le_rn1 (m : Bool) (r : BundleRow) : rn3 m r ≤ rn1 m r := by
  rw [Bool.le_iff_imp]
  simp only [rn1, rn3, Bool.and_eq_true, Bool.or_eq_true]
  tauto

/-- Helper: rn.4 refines rn.1 pointwise. -/
theorem rn4_le_rn1 (m : Bool) (r : BundleRow) : rn4 m r ≤ rn1 m r := by
  rw [Bool.le_iff_imp]
  simp only [rn1, rn4, Bool.and_eq_true, Bool.or_eq_true]
  tauto

/-- Helper: rn.5 refines rn.1 pointwise. -/
theorem rn5_le_rn1 (m : Bool) (r : BundleRow) : rn5 m r ≤ rn1 m r := by
  rw [Bool.le_iff_imp]
  simp only [rn1, rn5, Bool.and_eq_true, Bool.or_eq_true]
  tauto

/-- Concrete bundle row: both lag-1 originations are known zeros, side 1's
lag-1 launch is missing, side 1 is active at t and through t+3. -/
def c1_row : BundleRow :=
  ⟨some 1, some 0, some 0, some 0, none, some 0,
   some 1, some 1, some 1, some 0, some 0, some 0,
   some 1, some 0, some 0, some 0, false, false⟩

/-- C1 (counterexample): on a row whose side-1 lag-1 launch value is missing
(`mask_na_launch` false) but whose lag-1 originations are known zeros, the
masks a.6, a.7, a.8 and a.10 are nevertheless true, so one-sided missing
lag-1 launch data does not exclude the row from these masks as the claim
states. -/
theorem C1_counterexample :
    mask_na_launch c1_row = false ∧
    a6 true c1_row = true ∧ a7 true c1_row = true ∧
    a8 true c1_row = true ∧ a10 true c1_row = true := by
  decide

/-- C1 (amended): all of a.6–a.10 and b.6–b.10 are false on any row where
`mask_na_orig` is false; a.9 and b.6–b.10 are additionally false on any row
where `mask_na_launch` is false.  (a.6, a.7, a.8 and a.10 contain no launch
gate, so missing lag-1 launch data does not exclude a row from them.) -/
theorem C1_na_gates_amended : ∀ (m : Bool) (r : BundleRow),
    a6 m r ≤ mask_na_orig r ∧ a7 m r ≤ mask_na_orig r ∧ a8 m r ≤ mask_na_orig r ∧
    a9 m r ≤ mask_na_orig r ∧ a10 m r ≤ mask_na_orig r ∧
    b6 m r ≤ mask_na_orig r ∧ b7 m r ≤ mask_na_orig r ∧ b8 m r ≤ mask_na_orig r ∧
    b9 m r ≤ mask_na_orig r ∧ b10 m r ≤ mask_na_orig r ∧
    a9 m r ≤ mask_na_launch r ∧
    b6 m r ≤ mask_na_launch r ∧ b7 m r ≤ mask_na_launch r ∧ b8 m r ≤ mask_na_launch r ∧
    b9 m r ≤ mask_na_launch r ∧ b10 m r ≤ mask_na_launch r := by
  intro m r
  refine ⟨?_, ?_, ?_, ?_, ?_, ?_, ?_, ?_, ?_, ?_, ?_, ?_, ?_, ?_, ?_, ?_⟩
  all_goals
    rw [Bool.le_iff_imp]
    simp only [a6, a7, a8, a9, a10, b6, b7, b8, b9, b10, b_second_base,
      Bool.and_eq_true, Bool.or_eq_true]
    tauto

/-- C5: every one of the 25 classification-mask counts returned by the
classification engine is bounded by the total count of the scenario base
mask (each mask is a pointwise subset of the base mask). -/
theorem C5_counts_le_base_total :
    ∀ (arr : List BundleRow) (base_mask : List Bool),
      ∀ c ∈ compute_bundle_counts arr base_mask, c ≤ base_mask.countP id := by
  intro arr base_mask c hc
  simp only [compute_bundle_counts, maskList, List.map_cons, List.map_nil, List.mem_cons,
    List.not_mem_nil, or_false] at hc
  rcases hc with rfl|rfl|rfl|rfl|rfl|rfl|rfl|rfl|rfl|rfl|rfl|rfl|rfl|rfl|rfl|rfl|rfl|rfl|rfl|rfl|rfl|rfl|rfl|rfl|rfl
  all_goals
    apply countP_zip_le
    rintro ⟨r, mb⟩ hx
    revert hx
    simp only [a1, a2, a3, a4, a5, a6, a7, a8, a9, a10, b1, b2, b3, b4, b5, b6, b7, b8, b9, b10,
      rn1, rn2, rn3, rn4, rn5, b_second_base, Bool.and_eq_true, Bool.or_eq_true]
    tauto

/-- C5 witness: the a.6 count of a concrete one-row bundle under base mask
`[true]` is 1, which is indeed bounded by the base total 1. -/
theorem C5_counts_le_base_total_witness :
    (1 : ℕ) ≤ ([true] : List Bool).countP id :=
  C5_counts_le_base_total [c1_row] [true] 1 (by decide)

/-- C9: the classification masks form pointwise refinement chains
(a.2–a.5 imply a.1; a.7–a.10 imply a.6; b.7–b.10 imply b.6; rn.2–rn.5 imply
rn.1), and consequently each refined mask's count in the engine's output is
bounded by its base variant's count. -/
theorem C9_refinement_chains :
    (∀ (m : Bool) (r : BundleRow),
      a2 m r ≤ a1 m r ∧ a3 m r ≤ a1 m r ∧ a4 m r ≤ a1 m r ∧ a5 m r ≤ a1 m r ∧
      a7 m r ≤ a6 m r ∧ a8 m r ≤ a6 m r ∧ a9 m r ≤ a6 m r ∧ a10 m r ≤ a6 m r ∧
      b7 m r ≤ b6 m r ∧ b8 m r ≤ b6 m r ∧ b9 m r ≤ b6 m r ∧ b10 m r ≤ b6 m r ∧
      rn2 m r ≤ rn1 m r ∧ rn3 m r ≤ rn1 m r ∧ rn4 m r ≤ rn1 m r ∧ rn5 m r ≤ rn1 m r) ∧
    (∀ (arr : List BundleRow) (bm : List Bool),
      (compute_bundle_counts arr bm).getD 1 0 ≤ (compute_bundle_counts arr bm).getD 0 0 ∧
      (compute_bundle_counts arr bm).getD 2 0 ≤ (compute_bundle_counts arr bm).getD 0 0 ∧
      (compute_bundle_counts arr bm).getD 3 0 ≤ (compute_bundle_counts arr bm).getD 0 0 ∧
      (compute_bundle_counts arr bm).getD 4 0 ≤ (compute_bundle_counts arr bm).getD 0 0 ∧
      (compute_bundle_counts arr bm).getD 6 0 ≤ (compute_bundle_counts arr bm).getD 5 0 ∧
      (compute_bundle_counts arr bm).getD 7 0 ≤ (compute_bundle_counts arr bm).getD 5 0 ∧
      (compute_bundle_counts arr bm).getD 8 0 ≤ (compute_bundle_counts arr bm).getD 5 0 ∧
      (compute_bundle_counts arr bm).getD 9 0 ≤ (compute_bundle_counts arr bm).getD 5 0 ∧
      (compute_bundle_counts arr bm).getD 16 0 ≤ (compute_bundle_counts arr bm).getD 15 0 ∧
      (compute_bundle_counts arr bm).getD 17 0 ≤ (compute_bundle_counts arr bm).getD 15 0 ∧
      (compute_bundle_counts arr bm).getD 18 0 ≤ (compute_bundle_counts arr bm).getD 15 0 ∧
      (compute_bundle_counts arr bm).getD 19 0 ≤ (compute_bundle_counts arr bm).getD 15 0 ∧
      (compute_bundle_counts arr bm).getD 21 0 ≤ (compute_bundle_counts arr bm).getD 20 0 ∧
      (compute_bundle_counts arr bm).getD 22 0 ≤ (compute_bundle_counts arr bm).getD 20 0 ∧
      (compute_bundle_counts arr bm).getD 23 0 ≤ (compute_bundle_counts arr bm).getD 20 0 ∧
      (compute_bundle_counts arr bm).getD 24 0 ≤ (compute_bundle_counts arr bm).getD 20 0) := by
  constructor
  · intro m r
    exact ⟨a2_le_a1 m r, a3_le_a1 m r, a4_le_a1 m r, a5_le_a1 m r,
      a7_le_a6 m r, a8_le_a6 m r, a9_le_a6 m r, a10_le_a6 m r,
      b7_le_b6 m r, b8_le_b6 m r, b9_le_b6 m r, b10_le_b6 m r,
      rn2_le_rn1 m r, rn3_le_rn1 m r, rn4_le_rn1 m r, rn5_le_rn1 m r⟩
  · intro arr bm
    exact ⟨countP_mask_le a2 a1 a2_le_a1 arr bm, countP_mask_le a3 a1 a3_le_a1 arr bm,
      countP_mask_le a4 a1 a4_le_a1 arr bm, countP_mask_le a5 a1 a5_le_a1 arr bm,
      countP_mask_le a7 a6 a7_le_a6 arr bm, countP_mask_le a8 a6 a8_le_a6 arr bm,
      countP_mask_le a9 a6 a9_le_a6 arr bm, countP_mask_le a10 a6 a10_le_a6 arr bm,
      countP_mask_le b7 b6 b7_le_b6 arr bm, countP_mask_le b8 b6 b8_le_b6 arr bm,
      countP_mask_le b9 b6 b9_le_b6 arr bm, countP_mask_le b10 b6 b10_le_b6 arr bm,
      countP_mask_le rn2 rn1 rn2_le_rn1 arr bm, countP_mask_le rn3 rn1 rn3_le_rn1 arr bm,
      countP_mask_le rn4 rn1 rn4_le_rn1 arr bm, countP_mask_le rn5 rn1 rn5_le_rn1 arr bm⟩

/-- One row of the joined batch table built by `_attach_entity_batch`
(sorted by BoardName1, BoardName2, year), carrying the four attached series
columns for one group — side-1/side-2 origination (`cum_*_n_added_*_1/2`)
and side-1/side-2 launch (`cum_*_n_launch_*_1/2`) — each possibly missing
after the left joins. -/
structure JoinedRow where
  BoardName1 : ℕ
  BoardName2 : ℕ
  year : ℤ
  add1 : Option ℤ
  add2 : Option ℤ
  lau1 : Option ℤ
  lau2 : Option ℤ
deriving DecidableEq, Repr, Inhabited

/-- Pandas `groupby(key).shift(1)` on a possibly-missing value column, with
an accumulator holding, for each key, the value of that key's most recent
already-processed row (outer `none` = key not seen yet). -/
def group_shift1_aux {α κ : Type} [DecidableEq κ] (key : α → κ) (val : α → Option ℤ) :
    List α → (κ → Option (Option ℤ)) → List (Option ℤ)
  | [], _ => []
  | r :: rs, acc =>
      (acc (key r)).getD none ::
        group_shift1_aux key val rs (fun k => if k = key r then some (val r) else acc k)

/-- Pandas `groupby(key).shift(1)`: each row receives the value of the
previous row of its own key-group (in row order), missing at each group's
first row. -/
def group_shift1 {α κ : Type} [DecidableEq κ] (key : α → κ) (val : α → Option ℤ)
    (rows : List α) : List (Option ℤ) :=
  group_shift1_aux key val rows (fun _ => none)

/-- Pandas `groupby(key).shift(-k)` for `k ≥ 1`: each row receives the value
of the row `k` positions later within its own key-group (in row order),
missing when fewer than `k` same-key rows follow it. -/
def group_shift_negk {α κ : Type} [DecidableEq κ] (k : ℕ) (key : α → κ)
    (val : α → Option ℤ) : List α → List (Option ℤ)
  | [] => []
  | r :: rs =>
      ((rs.filter fun x => decide (key x = key r))[k - 1]?).bind val ::
        group_shift_negk k key val rs

/-- Cached lag-1 of the side-1 origination series
(`g1[add1.columns].shift(1)` in `_build_shift_last_cache`). -/
def L1_o1_cache (rows : List JoinedRow) : List (Option ℤ) :=
  group_shift1 (fun r => r.BoardName1) (fun r => r.add1) rows

/-- Cached lag-1 of the side-1 launch series (`g1[lau1.columns].shift(1)`). -/
def L1_l1_cache (rows : List JoinedRow) : List (Option ℤ) :=
  group_shift1 (fun r => r.BoardName1) (fun r => r.lau1) rows

/-- Cached lag-1 of the side-2 origination series
(`g2[add2.columns].shift(1)`, grouped by BoardName2, whose rows are not
contiguous in the (BoardName1, BoardName2, year)-sorted table). -/
def L1_o2_cache (rows : List JoinedRow) : List (Option ℤ) :=
  group_shift1 (fun r => r.BoardName2) (fun r => r.add2) rows

/-- Cached lag-1 of the side-2 launch series (`g2[lau2.columns].shift(1)`). -/
def L1_l2_cache (rows : List JoinedRow) : List (Option ℤ) :=
  group_shift1 (fun r => r.BoardName2) (fun r => r.lau2) rows

/-- Cached lead-1 of the side-1 origination series
(`g1[add1.columns].shift(-1)`). -/
def F1_o1_cache (rows : List JoinedRow) : List (Option ℤ) :=
  group_shift_negk 1 (fun r => r.BoardName1) (fun r => r.add1) rows

/-- Cached lead-2 of the side-1 origination series
(`g1[add1.columns].shift(-2)`). -/
def F2_o1_cache (rows : List JoinedRow) : List (Option ℤ) :=
  group_shift_negk 2 (fun r => r.BoardName1) (fun r => r.add1) rows

/-- Cached lead-3 of the side-1 origination series
(`g1[add1.columns].shift(-3)`). -/
def F3_o1_cache (rows : List JoinedRow) : List (Option ℤ) :=
  group_shift_negk 3 (fun r => r.BoardName1) (fun r => r.add1) rows

/-- Cached lead-1 of the side-2 origination series
(`g2[add2.columns].shift(-1)`). -/
def F1_o2_cache (rows : List JoinedRow) : List (Option ℤ) :=
  group_shift_negk 1 (fun r => r.BoardName2) (fun r => r.add2) rows

/-- Cached lead-2 of the side-2 origination series
(`g2[add2.columns].shift(-2)`). -/
def F2_o2_cache (rows : List JoinedRow) : List (Option ℤ) :=
  group_shift_negk 2 (fun r => r.BoardName2) (fun r => r.add2) rows

/-- Cached lead-3 of the side-2 origination series
(`g2[add2.columns].shift(-3)`). -/
def F3_o2_cache (rows : List JoinedRow) : List (Option ℤ) :=
  group_shift_negk 3 (fun r => r.BoardName2) (fun r => r.add2) rows

/-- Helper: a grouped shift(1) at row `i` reads the value of the most recent
earlier row with the same key (the accumulator standing in for rows before
the processed suffix). -/
theorem group_shift1_aux_getD {α κ : Type} [DecidableEq κ] [Inhabited α]
    (key : α → κ) (val : α → Option ℤ) :
    ∀ (rows : List α) (acc : κ → Option (Option ℤ)) (i : ℕ), i < rows.length →
    (group_shift1_aux key val rows acc).getD i none =
      (((rows.take i).filter fun x =>
          decide (key x = key (rows.getD i default))).getLast?).elim
        ((acc (key (rows.getD i default))).getD none) val := by
  intro rows
  induction rows with
  | nil => intro acc i hi; simp at hi
  | cons r rs ih =>
    intro acc i hi
    cases i with
    | zero => simp [group_shift1_aux]
    | succ j =>
      have hj : j < rs.length := Nat.lt_of_succ_lt_succ hi
      simp only [group_shift1_aux, List.getD_cons_succ, List.take_succ_cons]
      rw [ih _ j hj, List.filter_cons]
      by_cases hkr : key r = key (rs.getD j default)
      · have h3 : ((fun x => decide (key x = key (rs.getD j default))) r = true) := by
          simp [hkr]
        rcases hF : (rs.take j).filter
            (fun x => decide (key x = key (rs.getD j default))) with _ | ⟨y, ys⟩
        · rw [if_pos hkr.symm, if_pos h3]
          simp
        · rcases hL : (y :: ys).getLast? with _ | z
          · simp at hL
          · rw [if_pos hkr.symm, if_pos h3, List.getLast?_cons_cons, hL]
            rfl
      · have h3 : ¬((fun x => decide (key x = key (rs.getD j default))) r = true) := by
          simpa using hkr
        rw [if_neg (fun h => hkr h.symm), if_neg h3]

/-- Helper: a grouped shift(1) at row `i` equals the value of the most
recent earlier same-key row, missing when there is none (or when that value
is itself missing). -/
theorem group_shift1_getD {α κ : Type} [DecidableEq κ] [Inhabited α]
    (key : α → κ) (val : α → Option ℤ) (rows : List α) (i : ℕ) (hi : i < rows.length) :
    (group_shift1 key val rows).getD i none =
      (((rows.take i).filter fun x =>
          decide (key x = key (rows.getD i default))).getLast?).bind val := by
  rw [group_shift1, group_shift1_aux_getD key val rows _ i hi]
  rcases ((rows.take i).filter fun x =>
      decide (key x = key (rows.getD i default))).getLast? with _ | x <;> rfl

/-- Helper: a grouped shift(-k) at row `i` equals the value of the k-th
later same-key row, missing when fewer than k same-key rows follow. -/
theorem group_shift_negk_getD {α κ : Type} [DecidableEq κ] [Inhabited α]
    (k : ℕ) (key : α → κ) (val : α → Option ℤ) :
    ∀ (rows : List α) (i : ℕ), i < rows.length →
    (group_shift_negk k key val rows).getD i none =
      (((rows.drop (i + 1)).filter fun x =>
          decide (key x = key (rows.getD i default)))[k - 1]?).bind val := by
  intro rows
  induction rows with
  | nil => intro i hi; simp at hi
  | cons r rs ih =>
    intro i hi
    cases i with
    | zero =>
      simp only [group_shift_negk, List.getD_cons_zero, List.drop_succ_cons,
        List.drop_zero]
    | succ j =>
      simp only [group_shift_negk, List.getD_cons_succ, List.drop_succ_cons]
      exact ih j (Nat.lt_of_succ_lt_succ hi)

/-- Concrete joined batch table, sorted by (BoardName1, BoardName2, year):
firm 1 paired with firms 2 and 3 in 2000-2001, firm 4 paired with firms 2
and 3 in 2000.  `add1` carries the side-1 firm's origination value at the
row's year (firm 1: 1 in 2000, 2 in 2001; firm 4: 5), `add2` the side-2
firm's (firm 2: 10, 11; firm 3: 20, 21).  Note the BoardName2 = 2 rows sit
at the non-contiguous positions 0, 1, 4. -/
def c2_table : List JoinedRow :=
  [⟨1, 2, 2000, some 1, some 10, some 0, some 0⟩,
   ⟨1, 2, 2001, some 2, some 11, some 0, some 0⟩,
   ⟨1, 3, 2000, some 1, some 20, some 0, some 0⟩,
   ⟨1, 3, 2001, some 2, some 21, some 0, some 0⟩,
   ⟨4, 2, 2000, some 5, some 10, some 0, some 0⟩,
   ⟨4, 3, 2000, some 5, some 20, some 0, some 0⟩]

/-- C2 (counterexample): row 2 of `c2_table` opens a new pair trajectory
(pair (1,3) differs from the preceding row's pair (1,2)), yet the cached
lag-1 origination there is `some 2` — the value carried over from pair
(1,2)'s last row (year 2001) — and not missing, nor equal to firm 1's value
at the chronologically previous year (`some 1`).  This refutes both the
"missing at a trajectory boundary" part and the "value at the
chronologically previous observation of the firm's year-ordered sequence"
part of the claim. -/
theorem C2_lag_lead_cache_counterexample :
    L1_o1_cache c2_table = [none, some 1, some 2, some 1, none, some 5] ∧
    ((c2_table.getD 2 default).BoardName1, (c2_table.getD 2 default).BoardName2) ≠
      ((c2_table.getD 1 default).BoardName1, (c2_table.getD 1 default).BoardName2) ∧
    (L1_o1_cache c2_table).getD 2 none = some 2 ∧
    some (2 : ℤ) ≠ (none : Option ℤ) ∧ some (2 : ℤ) ≠ some (1 : ℤ) := by
  decide

/-- C2 (amended): over the (BoardName1, BoardName2, year)-sorted batch
table, every cached temporal-derivative column reads same-side-firm rows in
raw table order, not in the firm's year order: each lag-1 cache (side-1 and
side-2, origination and launch) equals the attached value of the most
recent EARLIER row of the same side firm (missing when no such row exists
or its value is missing), and each lead-k origination cache (k = 1, 2, 3,
both sides) equals the attached value of the k-th NEXT row of the same side
firm (missing when fewer than k such rows follow).  Same-firm rows form a
contiguous block for BoardName1 but possibly scattered positions for
BoardName2; either way the values cross pair-trajectory boundaries rather
than being missing there, and are not in general the firm's value at the
chronologically previous/next year. -/
theorem C2_lag_lead_cache_amended : ∀ (rows : List JoinedRow) (i : ℕ),
    i < rows.length →
    ((L1_o1_cache rows).getD i none =
      (((rows.take i).filter fun x =>
          decide (x.BoardName1 = (rows.getD i default).BoardName1)).getLast?).bind
        (fun r => r.add1)) ∧
    ((L1_l1_cache rows).getD i none =
      (((rows.take i).filter fun x =>
          decide (x.BoardName1 = (rows.getD i default).BoardName1)).getLast?).bind
        (fun r => r.lau1)) ∧
    ((L1_o2_cache rows).getD i none =
      (((rows.take i).filter fun x =>
          decide (x.BoardName2 = (rows.getD i default).BoardName2)).getLast?).bind
        (fun r => r.add2)) ∧
    ((L1_l2_cache rows).getD i none =
      (((rows.take i).filter fun x =>
          decide (x.BoardName2 = (rows.getD i default).BoardName2)).getLast?).bind
        (fun r => r.lau2)) ∧
    ((F1_o1_cache rows).getD i none =
      (((rows.drop (i + 1)).filter fun x =>
          decide (x.BoardName1 = (rows.getD i default).BoardName1))[0]?).bind
        (fun r => r.add1)) ∧
    ((F2_o1_cache rows).getD i none =
      (((rows.drop (i + 1)).filter fun x =>
          decide (x.BoardName1 = (rows.getD i default).BoardName1))[1]?).bind
        (fun r => r.add1)) ∧
    ((F3_o1_cache rows).getD i none =
      (((rows.drop (i + 1)).filter fun x =>
          decide (x.BoardName1 = (rows.getD i default).BoardName1))[2]?).bind
        (fun r => r.add1)) ∧
    ((F1_o2_cache rows).getD i none =
      (((rows.drop (i + 1)).filter fun x =>
          decide (x.BoardName2 = (rows.getD i default).BoardName2))[0]?).bind
        (fun r => r.add2)) ∧
    ((F2_o2_cache rows).getD i none =
      (((rows.drop (i + 1)).filter fun x =>
          decide (x.BoardName2 = (rows.getD i default).BoardName2))[1]?).bind
        (fun r => r.add2)) ∧
    ((F3_o2_cache rows).getD i none =
      (((rows.drop (i + 1)).filter fun x =>
          decide (x.BoardName2 = (rows.getD i default).BoardName2))[2]?).bind
        (fun r => r.add2)) := by
  intro rows i hi
  exact ⟨group_shift1_getD _ _ rows i hi, group_shift1_getD _ _ rows i hi,
    group_shift1_getD _ _ rows i hi, group_shift1_getD _ _ rows i hi,
    group_shift_negk_getD 1 _ _ rows i hi, group_shift_negk_getD 2 _ _ rows i hi,
    group_shift_negk_getD 3 _ _ rows i hi, group_shift_negk_getD 1 _ _ rows i hi,
    group_shift_negk_getD 2 _ _ rows i hi, group_shift_negk_getD 3 _ _ rows i hi⟩

/-- C2 amended witness on `c2_table`: row 2's side-1 lag carries pair
(1,2)'s last value `some 2`; row 4's side-2 lag reads the non-contiguous
firm-2 predecessor at row 1 (`some 11`); row 0's side-1 lead-3 reads the
third next firm-1 row (`some 2`); row 5's side-1 lead-1 is missing (last
firm-4 row). -/
theorem C2_lag_lead_cache_amended_witness :
    (L1_o1_cache c2_table).getD 2 none = some 2 ∧
    (L1_o2_cache c2_table).getD 4 none = some 11 ∧
    (F3_o1_cache c2_table).getD 0 none = some 2 ∧
    (F1_o1_cache c2_table).getD 5 none = none := by
  have h2 := C2_lag_lead_cache_amended c2_table 2 (by decide)
  have h4 := C2_lag_lead_cache_amended c2_table 4 (by decide)
  have h0 := C2_lag_lead_cache_amended c2_table 0 (by decide)
  have h5 := C2_lag_lead_cache_amended c2_table 5 (by decide)
  refine ⟨?_, ?_, ?_, ?_⟩
  · rw [h2.1]; decide
  · rw [h4.2.2.1]; decide
  · rw [h0.2.2.2.2.2.2.1]; decide
  · rw [h5.2.2.2.2.1]; decide

/-- Running maximum with a carried current maximum
(tail of `np.maximum.accumulate`). -/
def cummax_aux (c : ℤ) : List ℤ → List ℤ
  | [] => []
  | x :: xs => max c x :: cummax_aux (max c x) xs

/-- `np.maximum.accumulate`: elementwise running maximum. -/
def cummax : List ℤ → List ℤ
  | [] => []
  | x :: xs => x :: cummax_aux x xs

/-- Successive differences `diffs prev [v_i, ...] = [v_i - prev, ...]`
(tail of `np.diff`). -/
def diffs : ℤ → List ℤ → List ℤ
  | _, [] => []
  | prev, x :: xs => (x - prev) :: diffs x xs

/-- Index of the first strictly positive element
(`np.flatnonzero(d > 0)[0]`, `none` when there is none). -/
def first_pos_idx : List ℤ → Option ℕ
  | [] => none
  | d :: ds => if 0 < d then some 0 else (first_pos_idx ds).map (· + 1)

/-- `_first_increment_index_np`: index of the first strictly positive
increment relative to the first element (`np.diff` with the first element
prepended, so the first delta is 0; the NaN-repair branch of the source also
yields a 0 first delta).  `none` plays the role of the NaN sentinel. -/
def first_increment_index_np (v : List ℤ) : Option ℕ :=
  match v with
  | [] => none
  | x :: xs => first_pos_idx (0 :: diffs x xs)

/-- `np.nan_to_num(v, nan=0.0)` on one entry. -/
def nan_to_num0 (x : Option ℤ) : ℤ := x.getD 0

/-- Per-pair causal eligibility for one side: both monotone (cummax of
NaN-repaired) series have a first strictly-positive increment and the launch
increment index is at or after the origination increment index. -/
def pair_ok (o l : List (Option ℤ)) : Bool :=
  match first_increment_index_np (cummax (o.map nan_to_num0)),
        first_increment_index_np (cummax (l.map nan_to_num0)) with
  | some oi, some li => decide (oi ≤ li)
  | _, _ => false

/-- `ok[idx] = True`: set every listed position of a Boolean array to true
(positions beyond the array are ignored, matching valid NumPy indices). -/
def set_true (ok : List Bool) (idx : List ℕ) : List Bool :=
  idx.foldl (fun a i => a.set i true) ok

/-- One iteration of the loop of `_compute_causal_flags_for_pairs`:
broadcast each side's pair-level eligibility onto the pair's row indices. -/
def causal_step (o1 l1 o2 l2 : List (Option ℤ)) (ok : List Bool × List Bool)
    (idx : List ℕ) : List Bool × List Bool :=
  (if pair_ok (idx.map fun j => o1.getD j none) (idx.map fun j => l1.getD j none)
     then set_true ok.1 idx else ok.1,
   if pair_ok (idx.map fun j => o2.getD j none) (idx.map fun j => l2.getD j none)
     then set_true ok.2 idx else ok.2)

/-- `_compute_causal_flags_for_pairs`: start from all-false arrays of the
table's length and process every pair's row-index list. -/
def compute_causal_flags_for_pairs (groups_index : List (List ℕ))
    (o1 l1 o2 l2 : List (Option ℤ)) : List Bool × List Bool :=
  groups_index.foldl (causal_step o1 l1 o2 l2)
    (List.replicate o1.length false, List.replicate o1.length false)

/-- Helper: setting one position leaves other positions' `getD` unchanged. -/
theorem getD_set_ne (l : List Bool) (j i : ℕ) (a : Bool) (h : j ≠ i) :
    (l.set j a).getD i false = l.getD i false := by
  simp [List.getD, List.getElem?_set, h]

/-- Helper: setting a position inside the array makes `getD` return the new
value there. -/
theorem getD_set_eq (l : List Bool) (i : ℕ) (a : Bool) (h : i < l.length) :
    (l.set i a).getD i false = a := by
  simp [List.getD, List.getElem?_set, h]

/-- Helper: `set_true` preserves the array length. -/
theorem set_true_length (idx : List ℕ) : ∀ (ok : List Bool),
    (set_true ok idx).length = ok.length := by
  induction idx with
  | nil => intro ok; rfl
  | cons j rest ih =>
    intro ok
    simp only [set_true, List.foldl_cons] at ih ⊢
    rw [ih]
    simp

/-- Helper: a true `getD` implies the index is inside the array. -/
theorem lt_length_of_getD_true (l : List Bool) (i : ℕ)
    (h : l.getD i false = true) : i < l.length := by
  by_contra hlt
  rw [List.getD, List.get?_eq_none.mpr (Nat.le_of_not_lt hlt)] at h
  simp at h

/-- Helper: `set_true` never clears an already-true position. -/
theorem set_true_preserves_true (idx : List ℕ) : ∀ (ok : List Bool) (i : ℕ),
    ok.getD i false = true → (set_true ok idx).getD i false = true := by
  induction idx with
  | nil => intro ok i h; exact h
  | cons j rest ih =>
    intro ok i h
    simp only [set_true, List.foldl_cons] at ih ⊢
    apply ih
    by_cases hji : j = i
    · subst hji
      rw [getD_set_eq _ _ _ (lt_length_of_getD_true _ _ h)]
    · rw [getD_set_ne _ _ _ _ hji]
      exact h

/-- Helper: `set_true` makes every listed in-range position true. -/
theorem set_true_getD_mem (idx : List ℕ) : ∀ (ok : List Bool) (i : ℕ),
    i ∈ idx → i < ok.length → (set_true ok idx).getD i false = true := by
  induction idx with
  | nil => intro ok i h; simp at h
  | cons j rest ih =>
    intro ok i hmem hlen
    simp only [set_true, List.foldl_cons] at ih ⊢
    rcases List.mem_cons.mp hmem with rfl | hrest
    · apply set_true_preserves_true
      rw [getD_set_eq _ _ _ hlen]
    · exact ih _ _ hrest (by simpa using hlen)

/-- Helper: `set_true` leaves unlisted positions unchanged. -/
theorem set_true_getD_not_mem (idx : List ℕ) : ∀ (ok : List Bool) (i : ℕ),
    i ∉ idx → (set_true ok idx).getD i false = ok.getD i false := by
  induction idx with
  | nil => intro ok i h; rfl
  | cons j rest ih =>
    intro ok i hmem
    simp only [set_true, List.foldl_cons] at ih ⊢
    rw [ih _ _ (fun h => hmem (List.mem_cons_of_mem _ h))]
    exact getD_set_ne _ _ _ _ (fun h => hmem (h ▸ List.mem_cons_self _ _))

/-- Helper: one causal step preserves both array lengths. -/
theorem causal_step_length (o1 l1 o2 l2 : List (Option ℤ))
    (st : List Bool × List Bool) (idx : List ℕ) :
    (causal_step o1 l1 o2 l2 st idx).1.length = st.1.length ∧
    (causal_step o1 l1 o2 l2 st idx).2.length = st.2.length := by
  constructor <;> simp only [causal_step] <;> split <;> simp [set_true_length]

/-- Helper: one causal step leaves rows outside the processed pair
unchanged. -/
theorem causal_step_not_mem (o1 l1 o2 l2 : List (Option ℤ))
    (st : List Bool × List Bool) (idx : List ℕ) (i : ℕ) (h : i ∉ idx) :
    (causal_step o1 l1 o2 l2 st idx).1.getD i false = st.1.getD i false ∧
    (causal_step o1 l1 o2 l2 st idx).2.getD i false = st.2.getD i false := by
  constructor
  · simp only [causal_step]
    split
    · exact set_true_getD_not_mem _ _ _ h
    · rfl
  · simp only [causal_step]
    split
    · exact set_true_getD_not_mem _ _ _ h
    · rfl

/-- Helper: folding over pairs that never touch row `i` leaves row `i`
unchanged. -/
theorem foldl_causal_not_mem (o1 l1 o2 l2 : List (Option ℤ)) :
    ∀ (gis : List (List ℕ)) (st : List Bool × List Bool) (i : ℕ),
    (∀ idx ∈ gis, i ∉ idx) →
    ((gis.foldl (causal_step o1 l1 o2 l2) st).1.getD i false = st.1.getD i false ∧
     (gis.foldl (causal_step o1 l1 o2 l2) st).2.getD i false = st.2.getD i false) := by
  intro gis
  induction gis with
  | nil => intro st i _; exact ⟨rfl, rfl⟩
  | cons g rest ih =>
    intro st i h
    simp only [List.foldl_cons]
    have h1 := causal_step_not_mem o1 l1 o2 l2 st g i (h g (List.mem_cons_self _ _))
    have h2 := ih (causal_step o1 l1 o2 l2 st g) i
      (fun idx hx => h idx (List.mem_cons_of_mem _ hx))
    exact ⟨h2.1.trans h1.1, h2.2.trans h1.2⟩

/-- Helper: over pairwise-disjoint index lists, the fold assigns each row of
a pair exactly that pair's side-wise eligibility value. -/
theorem foldl_causal_spec (o1 l1 o2 l2 : List (Option ℤ)) :
    ∀ (gis : List (List ℕ)) (st : List Bool × List Bool) (idxs : List ℕ) (i : ℕ),
    gis.Pairwise (fun p q => ∀ j ∈ p, j ∉ q) →
    idxs ∈ gis → i ∈ idxs → i < st.1.length → i < st.2.length →
    st.1.getD i false = false → st.2.getD i false = false →
    ((gis.foldl (causal_step o1 l1 o2 l2) st).1.getD i false =
       pair_ok (idxs.map fun j => o1.getD j none) (idxs.map fun j => l1.getD j none) ∧
     (gis.foldl (causal_step o1 l1 o2 l2) st).2.getD i false =
       pair_ok (idxs.map fun j => o2.getD j none) (idxs.map fun j => l2.getD j none)) := by
  intro gis
  induction gis with
  | nil => intro st idxs i _ hmem; simp at hmem
  | cons g rest ih =>
    intro st idxs i hpw hmem hi hl1 hl2 hf1 hf2
    rw [List.pairwise_cons] at hpw
    obtain ⟨hg, hpw2⟩ := hpw
    simp only [List.foldl_cons]
    rcases List.mem_cons.mp hmem with rfl | hrest
    · have hnot : ∀ idx ∈ rest, i ∉ idx := fun idx hx => hg idx hx i hi
      have hfold := foldl_causal_not_mem o1 l1 o2 l2 rest
        (causal_step o1 l1 o2 l2 st idxs) i hnot
      refine ⟨hfold.1.trans ?_, hfold.2.trans ?_⟩
      · simp only [causal_step]
        split
        case isTrue hcond => rw [set_true_getD_mem _ _ _ hi hl1, hcond]
        case isFalse hcond =>
          rw [hf1]
          exact (Bool.eq_false_iff.mpr hcond).symm
      · simp only [causal_step]
        split
        case isTrue hcond => rw [set_true_getD_mem _ _ _ hi hl2, hcond]
        case isFalse hcond =>
          rw [hf2]
          exact (Bool.eq_false_iff.mpr hcond).symm
    · have hig : i ∉ g := fun higmem => (hg idxs hrest i higmem) hi
      have hstep := causal_step_not_mem o1 l1 o2 l2 st g i hig
      have hlen := causal_step_length o1 l1 o2 l2 st g
      exact ih (causal_step o1 l1 o2 l2 st g) idxs i hpw2 hrest hi
        (by rw [hlen.1]; exact hl1) (by rw [hlen.2]; exact hl2)
        (hstep.1.trans hf1) (hstep.2.trans hf2)

/-- Helper: successive differences of an all-zero list (with zero seed) are
all zero. -/
theorem diffs_all_zero : ∀ (xs : List ℤ) (prev : ℤ), (∀ x ∈ xs, x = 0) →
    prev = 0 → ∀ d ∈ diffs prev xs, d = 0 := by
  intro xs
  induction xs with
  | nil => intro prev _ _ d hd; simp [diffs] at hd
  | cons x xs ih =>
    intro prev hall hprev d hd
    have hx := hall x (List.mem_cons_self _ _)
    rcases List.mem_cons.mp hd with rfl | hd2
    · simp [hx, hprev]
    · exact ih x (fun y hy => hall y (List.mem_cons_of_mem _ hy)) hx d hd2

/-- Helper: an all-zero list has no strictly positive element. -/
theorem first_pos_idx_none : ∀ (ds : List ℤ), (∀ d ∈ ds, d = 0) →
    first_pos_idx ds = none := by
  intro ds
  induction ds with
  | nil => intro _; rfl
  | cons d ds ih =>
    intro hall
    have hd := hall d (List.mem_cons_self _ _)
    simp [first_pos_idx, hd, ih (fun y hy => hall y (List.mem_cons_of_mem _ hy))]

/-- Helper: the running maximum of an all-zero list is all zero. -/
theorem cummax_aux_all_zero : ∀ (xs : List ℤ) (c : ℤ), (∀ x ∈ xs, x = 0) →
    c = 0 → ∀ y ∈ cummax_aux c xs, y = 0 := by
  intro xs
  induction xs with
  | nil => intro c _ _ y hy; simp [cummax_aux] at hy
  | cons x xs ih =>
    intro c hall hc y hy
    have hx := hall x (List.mem_cons_self _ _)
    rcases List.mem_cons.mp hy with rfl | hy2
    · simp [hx, hc]
    · exact ih (max c x) (fun z hz => hall z (List.mem_cons_of_mem _ hz))
        (by simp [hx, hc]) y hy2

/-- Helper: `cummax` of an all-zero list is all zero. -/
theorem cummax_all_zero (v : List ℤ) (h : ∀ x ∈ v, x = 0) :
    ∀ y ∈ cummax v, y = 0 := by
  cases v with
  | nil => intro y hy; simp [cummax] at hy
  | cons x xs =>
    intro y hy
    have hx := h x (List.mem_cons_self _ _)
    rcases List.mem_cons.mp hy with rfl | hy2
    · exact hx
    · exact cummax_aux_all_zero xs x (fun z hz => h z (List.mem_cons_of_mem _ hz)) hx y hy2

/-- Helper: an all-zero series has no first positive increment. -/
theorem first_increment_index_np_none (v : List ℤ) (h : ∀ x ∈ v, x = 0) :
    first_increment_index_np v = none := by
  cases v with
  | nil => rfl
  | cons x xs =>
    have hx := h x (List.mem_cons_self _ _)
    have hd : ∀ d ∈ diffs x xs, d = 0 :=
      diffs_all_zero xs x (fun y hy => h y (List.mem_cons_of_mem _ hy)) hx
    simp [first_increment_index_np, first_pos_idx, first_pos_idx_none _ hd]

/-- Helper: a side whose NaN-repaired origination series is entirely zero is
never causally eligible. -/
theorem pair_ok_all_zero (o l : List (Option ℤ)) (h : ∀ x ∈ o, nan_to_num0 x = 0) :
    pair_ok o l = false := by
  have hz : ∀ y ∈ o.map nan_to_num0, y = 0 := by
    intro y hy
    rcases List.mem_map.mp hy with ⟨x, hx, rfl⟩
    exact h x hx
  have hnone : first_increment_index_np (cummax (o.map nan_to_num0)) = none :=
    first_increment_index_np_none _ (cummax_all_zero _ hz)
  simp [pair_ok, hnone]

/-- Helper: every position of an all-false array reads false. -/
theorem getD_replicate_false (n i : ℕ) :
    (List.replicate n false).getD i false = false := by
  induction n generalizing i with
  | zero => simp [List.getD]
  | succ n ih =>
    cases i with
    | zero => simp [List.replicate_succ]
    | succ j =>
      rw [List.replicate_succ, List.getD_cons_succ]
      exact ih j

/-- C3: for pairwise-disjoint pair index groups, the side-1 flag on every
row of a pair equals the pair's side-1 eligibility (first launch increment
at or after first origination increment of the NaN-repaired running-maximum
series), and likewise for side 2 — so each flag is constant within a pair;
moreover a side whose origination series is entirely zero (after NaN
repair) is never eligible. -/
theorem C3_causal_eligibility :
    (∀ (groups_index : List (List ℕ)) (o1 l1 o2 l2 : List (Option ℤ))
       (idxs : List ℕ) (i : ℕ),
      groups_index.Pairwise (fun p q => ∀ j ∈ p, j ∉ q) →
      idxs ∈ groups_index → i ∈ idxs → i < o1.length →
      ((compute_causal_flags_for_pairs groups_index o1 l1 o2 l2).1.getD i false =
         pair_ok (idxs.map fun j => o1.getD j none) (idxs.map fun j => l1.getD j none) ∧
       (compute_causal_flags_for_pairs groups_index o1 l1 o2 l2).2.getD i false =
         pair_ok (idxs.map fun j => o2.getD j none) (idxs.map fun j => l2.getD j none))) ∧
    (∀ (o l : List (Option ℤ)), (∀ x ∈ o, nan_to_num0 x = 0) → pair_ok o l = false) := by
  constructor
  · intro gi o1 l1 o2 l2 idxs i hpw hmem hi hlen
    exact foldl_causal_spec o1 l1 o2 l2 gi _ idxs i hpw hmem hi
      (by simpa using hlen) (by simpa using hlen)
      (getD_replicate_false _ _) (getD_replicate_false _ _)
  · intro o l h
    exact pair_ok_all_zero o l h

/-- C3 witness: a concrete two-row table with one pair; side 1 originates
and launches at row 1 (eligible), side 2's origination series is all zero
(ineligible); and `pair_ok` on an explicitly zero origination series is
false. -/
theorem C3_causal_eligibility_witness :
    ((compute_causal_flags_for_pairs [[0, 1]] [some 0, some 1] [some 0, some 1]
        [some 0, some 0] [none, none]).1.getD 0 false =
       pair_ok ([0, 1].map fun j => ([some 0, some 1] : List (Option ℤ)).getD j none)
         ([0, 1].map fun j => ([some 0, some 1] : List (Option ℤ)).getD j none) ∧
     (compute_causal_flags_for_pairs [[0, 1]] [some 0, some 1] [some 0, some 1]
        [some 0, some 0] [none, none]).2.getD 0 false =
       pair_ok ([0, 1].map fun j => ([some 0, some 0] : List (Option ℤ)).getD j none)
         ([0, 1].map fun j => ([none, none] : List (Option ℤ)).getD j none)) ∧
    pair_ok [some 0, none] [some 1] = false :=
  ⟨C3_causal_eligibility.1 [[0, 1]] [some 0, some 1] [some 0, some 1]
      [some 0, some 0] [none, none] [0, 1] 0 (by simp) (by simp) (by simp) (by simp),
   C3_causal_eligibility.2 [some 0, none] [some 1] (by decide)⟩

/-- Values shifted one position down with a carried previous value
(the body of pandas `shift(1)` within one group). -/
def shift1_vals (prev : ℤ) : List ℤ → List ℤ
  | [] => []
  | y :: ys => prev :: shift1_vals y ys

/-- Pandas `groupby(pair).shift(1).fillna(0)` on one pair's chronological
indicator sequence: the previous year's value, 0 at the first year. -/
def lag1_fill0 (xs : List ℤ) : List ℤ := shift1_vals 0 xs

/-- Running cumulative sum with carried accumulator
(pandas `groupby(pair).cumsum()` on one pair's sequence). -/
def cumsum_from (acc : ℤ) : List ℤ → List ℤ
  | [] => []
  | x :: xs => (acc + x) :: cumsum_from (acc + x) xs

/-- Cumulative sum of one pair's indicator sequence. -/
def cumsum0 (xs : List ℤ) : List ℤ := cumsum_from 0 xs

/-- `mask_indirect_yoy` (and analogously `mask_direct_yoy`) of `build_base`,
restricted to one pair's chronological indicator sequence:
`ind.eq(1) & L1_ind.eq(0)`. -/
def mask_yoy (ind : List ℤ) : List Bool :=
  List.zipWith (fun c l => decide (c = 1) && decide (l = 0)) ind (lag1_fill0 ind)

/-- `mask_never` of `build_base` on one pair's chronological indicator
sequences: both cumulative sums equal zero. -/
def mask_never (ind dir : List ℤ) : List Bool :=
  List.zipWith (fun a b => decide (a = 0) && decide (b = 0)) (cumsum0 ind) (cumsum0 dir)

/-- Helper: `getD` through a Boolean `zipWith` of two integer lists. -/
theorem getD_zipWith_bool (f : ℤ → ℤ → Bool) :
    ∀ (xs ys : List ℤ) (i : ℕ), i < xs.length → i < ys.length →
    (List.zipWith f xs ys).getD i false = f (xs.getD i 0) (ys.getD i 0) := by
  intro xs
  induction xs with
  | nil => intro ys i hx; simp at hx
  | cons x xs ih =>
    intro ys i hx hy
    cases ys with
    | nil => simp at hy
    | cons y ys =>
      cases i with
      | zero => rfl
      | succ j =>
        simp only [List.zipWith_cons_cons, List.getD_cons_succ]
        exact ih ys j (Nat.lt_of_succ_lt_succ hx) (Nat.lt_of_succ_lt_succ hy)

/-- Helper: the shifted list reads the previous element of the seeded
original list. -/
theorem getD_shift1_vals : ∀ (xs : List ℤ) (prev : ℤ) (i : ℕ), i < xs.length →
    (shift1_vals prev xs).getD i 0 = (prev :: xs).getD i 0 := by
  intro xs
  induction xs with
  | nil => intro prev i h; simp at h
  | cons y ys ih =>
    intro prev i h
    cases i with
    | zero => rfl
    | succ j =>
      simp only [shift1_vals, List.getD_cons_succ]
      exact ih y j (Nat.lt_of_succ_lt_succ h)

/-- Helper: `shift1_vals` preserves length. -/
theorem shift1_vals_length : ∀ (xs : List ℤ) (prev : ℤ),
    (shift1_vals prev xs).length = xs.length := by
  intro xs
  induction xs with
  | nil => intro prev; rfl
  | cons y ys ih => intro prev; simp [shift1_vals, ih]

/-- Helper: `cumsum_from` preserves length. -/
theorem cumsum_from_length : ∀ (xs : List ℤ) (acc : ℤ),
    (cumsum_from acc xs).length = xs.length := by
  intro xs
  induction xs with
  | nil => intro acc; rfl
  | cons x xs ih => intro acc; simp [cumsum_from, ih]

/-- Helper: the running cumulative sum at position `i` is the accumulator
plus the sum of the first `i+1` values. -/
theorem getD_cumsum_from : ∀ (xs : List ℤ) (acc : ℤ) (i : ℕ), i < xs.length →
    (cumsum_from acc xs).getD i 0 = acc + (xs.take (i+1)).sum := by
  intro xs
  induction xs with
  | nil => intro acc i h; simp at h
  | cons x xs ih =>
    intro acc i h
    cases i with
    | zero => simp [cumsum_from]
    | succ j =>
      simp only [cumsum_from, List.getD_cons_succ, List.take_succ_cons, List.sum_cons]
      rw [ih (acc + x) j (Nat.lt_of_succ_lt_succ h)]
      ring

/-- Helper: a sum of non-negative integers is non-negative. -/
theorem list_sum_nonneg : ∀ (l : List ℤ), (∀ x ∈ l, 0 ≤ x) → 0 ≤ l.sum := by
  intro l
  induction l with
  | nil => intro _; simp
  | cons x xs ih =>
    intro h
    have hx := h x (List.mem_cons_self _ _)
    have hs := ih (fun y hy => h y (List.mem_cons_of_mem _ hy))
    simp only [List.sum_cons]
    omega

/-- Helper: a sum of non-negative integers is zero iff every term is zero. -/
theorem list_sum_eq_zero_iff : ∀ (l : List ℤ), (∀ x ∈ l, 0 ≤ x) →
    (l.sum = 0 ↔ ∀ x ∈ l, x = 0) := by
  intro l
  induction l with
  | nil => intro _; simp
  | cons x xs ih =>
    intro h
    have hx := h x (List.mem_cons_self _ _)
    have hrest := fun y hy => h y (List.mem_cons_of_mem _ hy)
    have hs := list_sum_nonneg xs hrest
    simp only [List.sum_cons, List.mem_cons]
    constructor
    · intro hsum
      have hx0 : x = 0 := by omega
      have hxs : xs.sum = 0 := by omega
      intro y hy
      rcases hy with rfl | hy2
      · exact hx0
      · exact (ih hrest).mp hxs y hy2
    · intro hall
      have hx0 := hall x (Or.inl rfl)
      have hxs : xs.sum = 0 := (ih hrest).mpr fun y hy => hall y (Or.inr hy)
      omega

/-- C4 (counterexample): for the pair indicator sequence 0,1,0,1 the
Indirect-YoY mask of `build_base` is true in year 1 AND again in year 3 (a
later re-transition), so it is not "true only on the first year the
indicator turns from 0 to 1 (first occurrence only)". -/
theorem C4_yoy_counterexample :
    mask_yoy [0, 1, 0, 1] = [false, true, false, true] ∧
    (mask_yoy [0, 1, 0, 1]).getD 1 false = true ∧
    (mask_yoy [0, 1, 0, 1]).getD 3 false = true ∧
    (mask_yoy [0, 1, 0, 1]).countP id = 2 := by
  decide

/-- C4 (amended): on a pair's chronological indicator sequence, the YoY
mask is true exactly on EVERY year where the indicator is 1 and the
previous year's indicator (0 before the first year) is 0 — every 0-to-1
transition, re-transitions included, not only the first; and (for
non-negative indicator values) the Never mask is true exactly on the years
where every indicator value of both scenarios up to and including the
current year is zero. -/
theorem C4_scenario_masks_amended : ∀ (ind dir : List ℤ) (i : ℕ),
    (i < ind.length →
      ((mask_yoy ind).getD i false = true ↔
        (ind.getD i 0 = 1 ∧ (i = 0 ∨ ind.getD (i - 1) 0 = 0)))) ∧
    (i < ind.length → i < dir.length →
      (∀ x ∈ ind, 0 ≤ x) → (∀ x ∈ dir, 0 ≤ x) →
      ((mask_never ind dir).getD i false = true ↔
        ((∀ x ∈ ind.take (i + 1), x = 0) ∧ (∀ x ∈ dir.take (i + 1), x = 0)))) := by
  intro ind dir i
  constructor
  · intro hi
    have hlag : i < (lag1_fill0 ind).length := by
      simpa [lag1_fill0, shift1_vals_length] using hi
    rw [mask_yoy, getD_zipWith_bool _ _ _ _ hi hlag]
    rw [lag1_fill0, getD_shift1_vals _ _ _ hi]
    simp only [Bool.and_eq_true, decide_eq_true_eq]
    cases i with
    | zero => simp
    | succ j => simp [List.getD_cons_succ]
  · intro hi hdi hnn1 hnn2
    have hc1 : i < (cumsum0 ind).length := by
      simpa [cumsum0, cumsum_from_length] using hi
    have hc2 : i < (cumsum0 dir).length := by
      simpa [cumsum0, cumsum_from_length] using hdi
    rw [mask_never, getD_zipWith_bool _ _ _ _ hc1 hc2]
    rw [cumsum0, cumsum0, getD_cumsum_from _ _ _ hi, getD_cumsum_from _ _ _ hdi]
    simp only [Bool.and_eq_true, decide_eq_true_eq, zero_add]
    rw [list_sum_eq_zero_iff _ (fun x hx => hnn1 x (List.take_subset _ _ hx)),
        list_sum_eq_zero_iff _ (fun x hx => hnn2 x (List.take_subset _ _ hx))]

/-- C4 amended witness: on the indicator sequences ind = 0,1,0,1 and
dir = 0,0,0,0, year 1 is a 0-to-1 transition (YoY mask true) and year 0 has
all-zero history in both scenarios (Never mask true). -/
theorem C4_scenario_masks_amended_witness :
    (mask_yoy [0, 1, 0, 1]).getD 1 false = true ∧
    (mask_never [0, 1, 0, 1] [0, 0, 0, 0]).getD 0 false = true :=
  ⟨((C4_scenario_masks_amended [0, 1, 0, 1] [0, 0, 0, 0] 1).1 (by decide)).mpr
      (by decide),
   ((C4_scenario_masks_amended [0, 1, 0, 1] [0, 0, 0, 0] 0).2 (by decide) (by decide)
      (by decide) (by decide)).mpr (by decide)⟩

/-- `_counts_shares`: interleave each count with its share; share is 0 for
a non-positive total, else count divided by total. -/
def counts_shares (counts : List ℕ) (total : ℤ) : List ℚ :=
  if total ≤ 0 then counts.flatMap fun c => [(c : ℚ), 0]
  else counts.flatMap fun c => [(c : ℚ), (c : ℚ) / (total : ℚ)]

/-- Helper: positions of the interleaved (count, share) list. -/
theorem getD_bind_pair (f g : ℕ → ℚ) :
    ∀ (l : List ℕ) (i : ℕ), i < l.length →
    ((l.flatMap fun c => [f c, g c]).getD (2 * i) 0 = f (l.getD i 0) ∧
     (l.flatMap fun c => [f c, g c]).getD (2 * i + 1) 0 = g (l.getD i 0)) := by
  intro l
  induction l with
  | nil => intro i h; simp at h
  | cons c cs ih =>
    intro i h
    cases i with
    | zero => exact ⟨rfl, rfl⟩
    | succ j =>
      have h2 : 2 * (j + 1) = 2 * j + 1 + 1 := by ring
      rw [h2]
      simp only [List.flatMap_cons, List.getD_cons_succ, List.cons_append,
        List.nil_append, List.getD_cons_zero]
      exact ih j (Nat.lt_of_succ_lt_succ h)

/-- C6: in the emitted (count, share) list, the share of mask `i` is
count/total when the total is positive and 0 when the total is 0 (division
by zero never occurs), and the count entry is the count itself. -/
theorem C6_share_policy : ∀ (counts : List ℕ) (total : ℤ) (i : ℕ), i < counts.length →
    (0 < total →
      (counts_shares counts total).getD (2 * i + 1) 0 =
        (counts.getD i 0 : ℚ) / (total : ℚ)) ∧
    (total = 0 → (counts_shares counts total).getD (2 * i + 1) 0 = 0) ∧
    (counts_shares counts total).getD (2 * i) 0 = (counts.getD i 0 : ℚ) := by
  intro counts total i hi
  refine ⟨fun hpos => ?_, fun hzero => ?_, ?_⟩
  · rw [counts_shares, if_neg (by omega)]
    exact (getD_bind_pair _ _ counts i hi).2
  · rw [counts_shares, if_pos (by omega)]
    exact (getD_bind_pair _ _ counts i hi).2
  · by_cases htot : total ≤ 0
    · rw [counts_shares, if_pos htot]
      exact (getD_bind_pair _ _ counts i hi).1
    · rw [counts_shares, if_neg htot]
      exact (getD_bind_pair _ _ counts i hi).1

/-- C6 witness: counts [3, 4] with total 8 give share 1/2 for mask 1; with
total 0 they give share 0. -/
theorem C6_share_policy_witness :
    (counts_shares [3, 4] 8).getD 3 0 = (4 : ℚ) / 8 ∧
    (counts_shares [3, 4] 0).getD 3 0 = 0 :=
  ⟨(C6_share_policy [3, 4] 8 1 (by decide)).1 (by decide),
   (C6_share_policy [3, 4] 0 1 (by decide)).2.1 rfl⟩

/-- The numeric fields of one YoY output row in `run_entity`:
`[tot, 1.0 if tot else 0.0] + _counts_shares(counts, tot)`. -/
def yoy_row (tot : ℕ) (counts : List ℕ) : List ℚ :=
  [(tot : ℚ), if tot ≠ 0 then 1 else 0] ++ counts_shares counts (tot : ℤ)

/-- One YoY-by-history output row in `run_entity`: the history bucket label
followed by the same numeric fields. -/
def yoy_history_row (label : String) (tot : ℕ) (counts : List ℕ) :
    String × List ℚ :=
  (label, yoy_row tot counts)

/-- C7: in every YoY row (and in the numeric part of every YoY-by-history
row, which is built by the same formula), the total-share field is exactly
1 when the total event count is positive and exactly 0 when it is 0, in
which case every mask share in the row is also exactly 0. -/
theorem C7_yoy_total_share : ∀ (tot : ℕ) (counts : List ℕ) (label : String),
    (yoy_history_row label tot counts).2 = yoy_row tot counts ∧
    (0 < tot → (yoy_row tot counts).getD 1 0 = 1) ∧
    (tot = 0 → (yoy_row tot counts).getD 1 0 = 0 ∧
      ∀ i < counts.length, (yoy_row tot counts).getD (2 * i + 3) 0 = 0) := by
  intro tot counts label
  refine ⟨rfl, fun hpos => ?_, fun hzero => ⟨?_, fun i hi => ?_⟩⟩
  · simp [yoy_row, Nat.pos_iff_ne_zero.mp hpos]
  · simp [yoy_row, hzero]
  · have h2 : 2 * i + 3 = 2 * i + 1 + 1 + 1 := by ring
    simp only [yoy_row, h2, List.cons_append, List.nil_append, List.getD_cons_succ]
    rw [hzero]
    rw [counts_shares, if_pos (by norm_num)]
    exact (getD_bind_pair (fun c => (c : ℚ)) (fun _ => (0 : ℚ)) counts i hi).2

/-- C7 witness: with a zero total the total share and a mask share are 0;
with a positive total the total share is 1. -/
theorem C7_yoy_total_share_witness :
    (yoy_row 0 [5]).getD 1 0 = 0 ∧ (yoy_row 0 [5]).getD 3 0 = 0 ∧
    (yoy_row 2 [5]).getD 1 0 = 1 :=
  ⟨((C7_yoy_total_share 0 [5] "no_prior_direct").2.2 rfl).1,
   ((C7_yoy_total_share 0 [5] "no_prior_direct").2.2 rfl).2 0 (by decide),
   (C7_yoy_total_share 2 [5] "prior_direct").2.1 (by decide)⟩

/-- Helper: interleaving each element with a companion doubles the length. -/
theorem length_flatMap_pair (f g : ℕ → ℚ) : ∀ (l : List ℕ),
    (l.flatMap fun c => [f c, g c]).length = 2 * l.length := by
  intro l
  induction l with
  | nil => rfl
  | cons c cs ih =>
    simp only [List.flatMap_cons, List.length_append, ih, List.length_cons]
    simp
    ring

/-- Helper: the (count, share) list has twice the counts' length. -/
theorem counts_shares_length (counts : List ℕ) (total : ℤ) :
    (counts_shares counts total).length = 2 * counts.length := by
  rw [counts_shares]
  split <;> exact length_flatMap_pair _ _ counts

/-- Helper: the engine always returns 25 counts. -/
theorem compute_bundle_counts_length (arr : List BundleRow) (bm : List Bool) :
    (compute_bundle_counts arr bm).length = 25 := by
  simp [compute_bundle_counts, maskList]

/-- Helper: length of one YoY/scenario-block numeric row. -/
theorem yoy_row_length (tot : ℕ) (counts : List ℕ) :
    (yoy_row tot counts).length = 2 + 2 * counts.length := by
  simp only [yoy_row, List.length_append, counts_shares_length, List.length_cons,
    List.length_nil]

/-- Helper: `getD` reads the left part of an append below its length. -/
theorem getD_append_lt (l1 l2 : List ℚ) (n : ℕ) (h : n < l1.length) :
    (l1 ++ l2).getD n 0 = l1.getD n 0 := by
  simp [List.getD, List.getElem?_append, h]

/-- Helper: `getD` reads the right part of an append above the left
length. -/
theorem getD_append_ge (l1 l2 : List ℚ) (n : ℕ) (h : l1.length ≤ n) :
    (l1 ++ l2).getD n 0 = l2.getD (n - l1.length) 0 := by
  simp [List.getD, List.getElem?_append_right h]

/-- Helper: a map whose function is constant on the list is a replicate. -/
theorem map_const_eq_replicate {α β : Type} (l : List α) (f : α → β) (c : β)
    (h : ∀ x ∈ l, f x = c) : l.map f = List.replicate l.length c := by
  induction l with
  | nil => rfl
  | cons x xs ih =>
    simp only [List.map_cons, List.length_cons, List.replicate_succ]
    rw [h x (List.mem_cons_self _ _), ih fun y hy => h y (List.mem_cons_of_mem _ hy)]

/-- The numeric fields of one master-table row in `run_entity`: three
scenario blocks (Indirect, Direct, No-Interlock), each
`[tot, 1.0 if tot else 0.0] + _counts_shares(counts, tot)`. -/
def master_row (totInd totDir totNon : ℕ) (cInd cDir cNon : List ℕ) : List ℚ :=
  yoy_row totInd cInd ++ yoy_row totDir cDir ++ yoy_row totNon cNon

/-- The master rows built by `run_entity`: the three scenario totals are
computed once from the base table's masks, before and independent of the
per-group loop. -/
def run_entity_master_rows (mask_indirect mask_direct mask_none : List Bool)
    (groups : List (String × List BundleRow)) : List (String × List ℚ) :=
  groups.map fun p =>
    (p.1,
     master_row (mask_indirect.countP id) (mask_direct.countP id) (mask_none.countP id)
       (compute_bundle_counts p.2 mask_indirect)
       (compute_bundle_counts p.2 mask_direct)
       (compute_bundle_counts p.2 mask_none))

/-- Helper: the total-count and total-share fields of a master row sit at
fixed positions and depend only on the scenario totals. -/
theorem master_row_totals (tI tD tN : ℕ) (cI cD cN : List ℕ)
    (h1 : cI.length = 25) (h2 : cD.length = 25) :
    (master_row tI tD tN cI cD cN).getD 0 0 = (tI : ℚ) ∧
    (master_row tI tD tN cI cD cN).getD 1 0 = (if tI ≠ 0 then (1 : ℚ) else 0) ∧
    (master_row tI tD tN cI cD cN).getD 52 0 = (tD : ℚ) ∧
    (master_row tI tD tN cI cD cN).getD 53 0 = (if tD ≠ 0 then (1 : ℚ) else 0) ∧
    (master_row tI tD tN cI cD cN).getD 104 0 = (tN : ℚ) ∧
    (master_row tI tD tN cI cD cN).getD 105 0 = (if tN ≠ 0 then (1 : ℚ) else 0) := by
  have l1 : (yoy_row tI cI).length = 52 := by rw [yoy_row_length, h1]
  have l2 : (yoy_row tD cD).length = 52 := by rw [yoy_row_length, h2]
  have l12 : (yoy_row tI cI ++ yoy_row tD cD).length = 104 := by
    rw [List.length_append, l1, l2]
  refine ⟨?_, ?_, ?_, ?_, ?_, ?_⟩
  · rw [master_row, getD_append_lt _ _ _ (by omega), getD_append_lt _ _ _ (by omega)]
    rfl
  · rw [master_row, getD_append_lt _ _ _ (by omega), getD_append_lt _ _ _ (by omega)]
    rfl
  · rw [master_row, getD_append_lt _ _ _ (by omega), getD_append_ge _ _ _ (by omega), l1]
    rfl
  · rw [master_row, getD_append_lt _ _ _ (by omega), getD_append_ge _ _ _ (by omega), l1]
    rfl
  · rw [master_row, getD_append_ge _ _ _ (by omega), l12]
    rfl
  · rw [master_row, getD_append_ge _ _ _ (by omega), l12]
    rfl

/-- Helper: extracting the six total fields from every master row yields the
same base-mask-determined tuple for every group. -/
theorem master_rows_totals_replicate (mi md mn : List Bool)
    (groups : List (String × List BundleRow)) :
    (run_entity_master_rows mi md mn groups).map
        (fun p => (p.2.getD 0 0, p.2.getD 1 0, p.2.getD 52 0, p.2.getD 53 0,
                   p.2.getD 104 0, p.2.getD 105 0)) =
      List.replicate groups.length
        (((mi.countP id : ℕ) : ℚ), (if mi.countP id ≠ 0 then (1 : ℚ) else 0),
         ((md.countP id : ℕ) : ℚ), (if md.countP id ≠ 0 then (1 : ℚ) else 0),
         ((mn.countP id : ℕ) : ℚ), (if mn.countP id ≠ 0 then (1 : ℚ) else 0)) := by
  rw [run_entity_master_rows, List.map_map]
  apply map_const_eq_replicate
  intro p _
  have h := master_row_totals (mi.countP id) (md.countP id) (mn.countP id)
    (compute_bundle_counts p.2 mi) (compute_bundle_counts p.2 md)
    (compute_bundle_counts p.2 mn)
    (compute_bundle_counts_length _ _) (compute_bundle_counts_length _ _)
  simp only [Function.comp_apply]
  rw [h.1, h.2.1, h.2.2.1, h.2.2.2.1, h.2.2.2.2.1, h.2.2.2.2.2]

/-- C10: the three scenario totals (and their total-share fields) in the
master table are determined by the interlock base table's masks alone and
are identical in every group's row; two runs that differ only in the
per-group origination/launch bundles produce equal total fields in every
row. -/
theorem C10_totals_base_only :
    (∀ (mi md mn : List Bool) (groups : List (String × List BundleRow)),
      (run_entity_master_rows mi md mn groups).map
          (fun p => (p.2.getD 0 0, p.2.getD 1 0, p.2.getD 52 0, p.2.getD 53 0,
                     p.2.getD 104 0, p.2.getD 105 0)) =
        List.replicate groups.length
          (((mi.countP id : ℕ) : ℚ), (if mi.countP id ≠ 0 then (1 : ℚ) else 0),
           ((md.countP id : ℕ) : ℚ), (if md.countP id ≠ 0 then (1 : ℚ) else 0),
           ((mn.countP id : ℕ) : ℚ), (if mn.countP id ≠ 0 then (1 : ℚ) else 0))) ∧
    (∀ (mi md mn : List Bool) (g1 g2 : List (String × List BundleRow)),
      g1.length = g2.length →
      (run_entity_master_rows mi md mn g1).map
          (fun p => (p.2.getD 0 0, p.2.getD 1 0, p.2.getD 52 0, p.2.getD 53 0,
                     p.2.getD 104 0, p.2.getD 105 0)) =
        (run_entity_master_rows mi md mn g2).map
          (fun p => (p.2.getD 0 0, p.2.getD 1 0, p.2.getD 52 0, p.2.getD 53 0,
                     p.2.getD 104 0, p.2.getD 105 0))) := by
  refine ⟨master_rows_totals_replicate, ?_⟩
  intro mi md mn g1 g2 hlen
  rw [master_rows_totals_replicate, master_rows_totals_replicate, hlen]

/-- C10 witness: two one-group runs over the same base masks but different
per-group bundles have equal extracted total fields. -/
theorem C10_totals_base_only_witness :
    (run_entity_master_rows [true] [false] [false] [("g", [c1_row])]).map
        (fun p => (p.2.getD 0 0, p.2.getD 1 0, p.2.getD 52 0, p.2.getD 53 0,
                   p.2.getD 104 0, p.2.getD 105 0)) =
      (run_entity_master_rows [true] [false] [false] [("g", [])]).map
        (fun p => (p.2.getD 0 0, p.2.getD 1 0, p.2.getD 52 0, p.2.getD 53 0,
                   p.2.getD 104 0, p.2.getD 105 0)) :=
  C10_totals_base_only.2 [true] [false] [false] [("g", [c1_row])] [("g", [])] rfl

/-- Group discovery in `build_base`: match each firm-year column name
against `cum_{entity}_n_added_(.+)` and collect the captured group names
(the capture must be non-empty). -/
def detect_groups (columns : List String) (entity : String) : List String :=
  columns.filterMap fun c =>
    let pre := "cum_" ++ entity ++ "_n_added_"
    if c.take pre.length = pre ∧ pre.length < c.length then some (c.drop pre.length)
    else none

/-- The group-discovery stage of `build_base`: abort with a RuntimeError
when no entity has any detected group
(`if not any(groups_by_entity.values()): raise`). -/
def build_base_groups (columns : List String) (entities : List String) :
    Except String (List (String × List String)) :=
  let gbe := entities.map fun e => (e, detect_groups columns e)
  if gbe.all fun p => p.2.isEmpty then
    Except.error "No groups found for disease/therapeutic in citeline columns."
  else Except.ok gbe

/-- `fname`: therapeutic output files carry a fixed literal name prefix. -/
def fname (entity base : String) : String :=
  if entity = "disease" then base else "therapeutic_" ++ base

/-- The output files `run_entity` writes for one entity (via `emit_master`
and `emit_yoy`); none when the entity has no detected groups (`run_entity`
returns before emitting). -/
def run_entity_files (entity : String) (groups : List String) : List String :=
  if groups.isEmpty then []
  else
    [(if entity = "disease" then "full_disease_results_with_all_scenarios.csv"
      else "full_therapeutic_results_with_all_scenarios.csv"),
     fname entity "originate_changes_interlock_indirect_with_shares.csv",
     fname entity "originate_changes_interlock_direct_with_shares.csv",
     fname entity "originate_changes_not_interlock_indirect_with_shares.csv",
     fname entity "originate_changes_interlock_indirect_with_shares_YoY_events.csv",
     fname entity "originate_changes_interlock_indirect_with_shares_by_prior_direct_history.csv",
     fname entity "originate_changes_interlock_direct_with_shares_YoY_events.csv",
     fname entity "originate_changes_interlock_direct_with_share_by_prior_direct_history.csv",
     fname entity "originate_changes_not_interlock_with_shares_YoY_events.csv"]

/-- The control flow of `main`: build the base (which aborts on empty group
discovery before anything is written), then run every entity; the result
lists the output files written. -/
def main_files (columns : List String) (entities : List String) :
    Except String (List String) :=
  match build_base_groups columns entities with
  | Except.error e => Except.error e
  | Except.ok gbe => Except.ok (gbe.flatMap fun p => run_entity_files p.1 p.2)

/-- Files actually written by a run: none when the run aborted. -/
def written_files : Except String (List String) → List String
  | Except.error _ => []
  | Except.ok l => l

/-- C8: when group discovery over the firm-year column names finds no group
for any entity, the run aborts with the RuntimeError of `build_base` and no
output file is written. -/
theorem C8_empty_discovery_aborts : ∀ (columns : List String) (entities : List String),
    (∀ e ∈ entities, detect_groups columns e = []) →
    main_files columns entities =
      Except.error "No groups found for disease/therapeutic in citeline columns." ∧
    written_files (main_files columns entities) = [] := by
  intro cols ents h
  have hall : ((ents.map fun e => (e, detect_groups cols e)).all
      fun p => p.2.isEmpty) = true := by
    rw [List.all_eq_true]
    intro p hp
    rcases List.mem_map.mp hp with ⟨e, he, rfl⟩
    simp [h e he]
  constructor
  · simp only [main_files, build_base_groups, hall, if_true]
  · simp only [main_files, build_base_groups, hall, if_true, written_files]

/-- C8 witness: a firm-year header with no `cum_*_n_added_*` column aborts
the run with no output written. -/
theorem C8_empty_discovery_aborts_witness :
    main_files ["BoardName", "year"] ["disease", "therapeutic"] =
      Except.error "No groups found for disease/therapeutic in citeline columns." ∧
    written_files (main_files ["BoardName", "year"] ["disease", "therapeutic"]) = [] :=
  C8_empty_discovery_aborts ["BoardName", "year"] ["disease", "therapeutic"] (by decide)
